import Mathlib

/-!
Shallow embedding of `CesiumBabylonFusion` (src/unnamed/part_004, the
control-mode version of the class) over exact real arithmetic.

Conventions of the embedding:
* Geodetic points are carried in cartographic form (`Carto`: longitude,
  latitude in radians, height in meters).  The source functions
  `cartesianToBabylon` / `babylonPositionToCesium` begin by calling the
  external `Cesium.Cartographic.fromCartesian` on their ECEF inputs (resp.
  end with `Cesium.Cartesian3.fromRadians`); the embedding takes / returns
  the cartographic form directly and models `fromRadians` explicitly as
  `wgs84FromRadians` where an ECEF value is needed.
* Vectors (`Vec3`) are triples of reals; Babylon's and Cesium's vector types
  are both modelled by `Vec3` (the axis conventions differ and the source's
  explicit component swizzles are kept as written).
* The external ENU frame matrix (`Cesium.Transforms.eastNorthUpToFixedFrame`)
  is an explicit 3x3 matrix parameter `Mat3` (the linear part of the 4x4
  rigid transform; `multiplyByPointAsVector` applies only that part, and
  `Matrix4.inverse` of a rigid transform has linear part the 3x3 inverse,
  modelled by the closed cofactor formula `Mat3.inv`).
-/

namespace Fusion

/-- A 3-component vector (used for both Babylon `Vector3` and Cesium
`Cartesian3` values; the source's explicit coordinate swizzles are kept). -/
@[ext]
structure Vec3 where
  x : ℝ
  y : ℝ
  z : ℝ

/-- A geodetic point: longitude and latitude in radians, height in meters
(`Cesium.Cartographic`). -/
@[ext]
structure Carto where
  longitude : ℝ
  latitude : ℝ
  height : ℝ

/-- The zero vector. -/
def vZero : Vec3 := ⟨0, 0, 0⟩

/-- The cartographic origin (longitude 0, latitude 0, height 0). -/
def cartoZero : Carto := ⟨0, 0, 0⟩

/-- Componentwise sum (`Cesium.Cartesian3.add`). -/
noncomputable def Vec3.add (a b : Vec3) : Vec3 := ⟨a.x + b.x, a.y + b.y, a.z + b.z⟩

/-- Componentwise difference (`Cesium.Cartesian3.subtract`). -/
noncomputable def Vec3.sub (a b : Vec3) : Vec3 := ⟨a.x - b.x, a.y - b.y, a.z - b.z⟩

/-- Scalar multiple of a vector. -/
noncomputable def smulV (k : ℝ) (v : Vec3) : Vec3 := ⟨k * v.x, k * v.y, k * v.z⟩

/-- Squared Euclidean magnitude (`Cesium.Cartesian3.magnitudeSquared`). -/
noncomputable def normSq (v : Vec3) : ℝ := v.x ^ 2 + v.y ^ 2 + v.z ^ 2

/-- Euclidean magnitude (`Cesium.Cartesian3.magnitude`). -/
noncomputable def vecNorm (v : Vec3) : ℝ := Real.sqrt (normSq v)

/-- Distance between two points (`BABYLON.Vector3.Distance`). -/
noncomputable def vecDist (a b : Vec3) : ℝ := vecNorm (Vec3.sub a b)

/-- Normalization by the magnitude (`Cesium.Cartesian3.normalize`, which
divides each component by the magnitude). -/
noncomputable def normalizeV (v : Vec3) : Vec3 :=
  ⟨v.x / vecNorm v, v.y / vecNorm v, v.z / vecNorm v⟩

/-- WGS84 semi-major axis in meters (`Cesium.Ellipsoid.WGS84`). -/
noncomputable def wgs84SemiMajor : ℝ := 6378137

/-- WGS84 semi-minor axis in meters (`Cesium.Ellipsoid.WGS84`). -/
noncomputable def wgs84SemiMinor : ℝ := 6356752.3142451793

/-- Square of the first eccentricity of the WGS84 ellipsoid. -/
noncomputable def wgs84ESquared : ℝ := 1 - wgs84SemiMinor ^ 2 / wgs84SemiMajor ^ 2

/-- ECEF position of a geodetic point on the WGS84 ellipsoid
(`Cesium.Cartesian3.fromRadians`; written with the prime-vertical radius
N = a / sqrt(1 - e^2 sin^2 lat), algebraically equal to Cesium's
radiiSquared formulation). -/
noncomputable def wgs84FromRadians (c : Carto) : Vec3 :=
  let n := wgs84SemiMajor / Real.sqrt (1 - wgs84ESquared * Real.sin c.latitude ^ 2)
  ⟨(n + c.height) * Real.cos c.latitude * Real.cos c.longitude,
   (n + c.height) * Real.cos c.latitude * Real.sin c.longitude,
   (n * (1 - wgs84ESquared) + c.height) * Real.sin c.latitude⟩

/-- The constant `radius = 6378137.0` used by `cartesianToBabylon` and
`babylonPositionToCesium` (lines 610 and 669). -/
noncomputable def earthRadius : ℝ := 6378137

/-- Lines 594-624 (`cartesianToBabylon`): local offset of `target` from
`base`, x = east = R cos(baseLat) (lonDiff), y = height difference,
z = north = R (latDiff).  Both ECEF inputs are given here already converted
to cartographic form (the source's step 1-2, `Cartographic.fromCartesian`). -/
noncomputable def cartesianToBabylon (base target : Carto) : Vec3 :=
  let lonDiff := target.longitude - base.longitude
  let latDiff := target.latitude - base.latitude
  let heightDiff := target.height - base.height
  let eastDistance := earthRadius * Real.cos base.latitude * lonDiff
  let northDistance := earthRadius * latDiff
  ⟨eastDistance, heightDiff, northDistance⟩

/-- Lines 645-650 (`babylonToCartesian`): the base point's ECEF position plus
the offset `(v.x, v.z, v.y)` taken directly as ECEF components. -/
noncomputable def babylonToCartesian (base : Carto) (v : Vec3) : Vec3 :=
  Vec3.add (wgs84FromRadians base) ⟨v.x, v.z, v.y⟩

/-- Lines 658-682 (`babylonPositionToCesium`): inverse scalings
lonDiff = east / (R cos baseLat), latDiff = north / R, height added; the
source then applies `Cartesian3.fromRadians`, which the embedding leaves to
the caller (`wgs84FromRadians`). -/
noncomputable def babylonPositionToCesium (base : Carto) (p : Vec3) : Carto :=
  ⟨base.longitude + p.x / (earthRadius * Real.cos base.latitude),
   base.latitude + p.z / earthRadius,
   base.height + p.y⟩

/-- A 3x3 real matrix: the linear (rotation) part of the 4x4 ENU-to-fixed
frame transform returned by `Cesium.Transforms.eastNorthUpToFixedFrame`. -/
@[ext]
structure Mat3 where
  m00 : ℝ
  m01 : ℝ
  m02 : ℝ
  m10 : ℝ
  m11 : ℝ
  m12 : ℝ
  m20 : ℝ
  m21 : ℝ
  m22 : ℝ

/-- Matrix-vector product (`Cesium.Matrix4.multiplyByPointAsVector` applies
exactly the linear part of the 4x4 transform, with no translation). -/
noncomputable def Mat3.mulVec (m : Mat3) (v : Vec3) : Vec3 :=
  ⟨m.m00 * v.x + m.m01 * v.y + m.m02 * v.z,
   m.m10 * v.x + m.m11 * v.y + m.m12 * v.z,
   m.m20 * v.x + m.m21 * v.y + m.m22 * v.z⟩

/-- Matrix product. -/
noncomputable def Mat3.mul (a b : Mat3) : Mat3 :=
  ⟨a.m00 * b.m00 + a.m01 * b.m10 + a.m02 * b.m20,
   a.m00 * b.m01 + a.m01 * b.m11 + a.m02 * b.m21,
   a.m00 * b.m02 + a.m01 * b.m12 + a.m02 * b.m22,
   a.m10 * b.m00 + a.m11 * b.m10 + a.m12 * b.m20,
   a.m10 * b.m01 + a.m11 * b.m11 + a.m12 * b.m21,
   a.m10 * b.m02 + a.m11 * b.m12 + a.m12 * b.m22,
   a.m20 * b.m00 + a.m21 * b.m10 + a.m22 * b.m20,
   a.m20 * b.m01 + a.m21 * b.m11 + a.m22 * b.m21,
   a.m20 * b.m02 + a.m21 * b.m12 + a.m22 * b.m22⟩

/-- Transpose. -/
noncomputable def Mat3.transpose (m : Mat3) : Mat3 :=
  ⟨m.m00, m.m10, m.m20, m.m01, m.m11, m.m21, m.m02, m.m12, m.m22⟩

/-- The identity matrix. -/
noncomputable def idMat3 : Mat3 := ⟨1, 0, 0, 0, 1, 0, 0, 0, 1⟩

/-- Determinant. -/
noncomputable def Mat3.det (m : Mat3) : ℝ :=
  m.m00 * (m.m11 * m.m22 - m.m12 * m.m21)
    - m.m01 * (m.m10 * m.m22 - m.m12 * m.m20)
    + m.m02 * (m.m10 * m.m21 - m.m11 * m.m20)

/-- Classical adjugate (transpose of the cofactor matrix). -/
noncomputable def Mat3.adjugate (m : Mat3) : Mat3 :=
  ⟨m.m11 * m.m22 - m.m12 * m.m21,
   m.m02 * m.m21 - m.m01 * m.m22,
   m.m01 * m.m12 - m.m02 * m.m11,
   m.m12 * m.m20 - m.m10 * m.m22,
   m.m00 * m.m22 - m.m02 * m.m20,
   m.m02 * m.m10 - m.m00 * m.m12,
   m.m10 * m.m21 - m.m11 * m.m20,
   m.m01 * m.m20 - m.m00 * m.m21,
   m.m00 * m.m11 - m.m01 * m.m10⟩

/-- Matrix inverse by the cofactor formula (`Cesium.Matrix4.inverse`
restricted to the linear part of a rigid transform). -/
noncomputable def Mat3.inv (m : Mat3) : Mat3 :=
  let d := m.det
  let a := m.adjugate
  ⟨a.m00 / d, a.m01 / d, a.m02 / d,
   a.m10 / d, a.m11 / d, a.m12 / d,
   a.m20 / d, a.m21 / d, a.m22 / d⟩

/-- An orthogonal matrix: the ENU basis at the base point is orthonormal, so
the linear part of `eastNorthUpToFixedFrame` satisfies this. -/
def Mat3.IsOrthogonal (m : Mat3) : Prop :=
  m.transpose.mul m = idMat3 ∧ m.mul m.transpose = idMat3

/-- Lines 804-828 (`cesiumDirectionToBabylon`): apply the inverse of the ENU
frame's linear part, then permute ENU axes into Babylon's convention
(East -> x, Up -> y, North -> z). -/
noncomputable def cesiumDirectionToBabylon (enu : Mat3) (direction : Vec3) : Vec3 :=
  let localDirection := enu.inv.mulVec direction
  ⟨localDirection.x, localDirection.z, localDirection.y⟩

/-- Lines 836-863 (`babylonDirectionToCesium`): permute Babylon axes back to
ENU, normalize, apply the ENU frame's linear part, normalize again. -/
noncomputable def babylonDirectionToCesium (enu : Mat3) (direction : Vec3) : Vec3 :=
  let localDirection : Vec3 := ⟨direction.x, direction.z, direction.y⟩
  let localNormalized := normalizeV localDirection
  let cesiumDirection := enu.mulVec localNormalized
  normalizeV cesiumDirection

/-- Lines 519-532 (`updateBabylonLighting`, steps 4-6): the sun direction seen
from the base point, normalized in ECEF and rotated into the Babylon frame. -/
noncomputable def babylonSunDirection (enu : Mat3) (sunPositionFixed basePointEcef : Vec3) : Vec3 :=
  cesiumDirectionToBabylon enu (normalizeV (Vec3.sub sunPositionFixed basePointEcef))

/-- Line 535: the sun's height angle above the horizon,
`Math.asin(babylonSunDirection.y)`. -/
noncomputable def sunHeightAngle (babylonDir : Vec3) : ℝ := Real.arcsin babylonDir.y

/-- Line 538: light intensity `Math.max(0, Math.sin(heightAngle))`. -/
noncomputable def sunIntensity (babylonDir : Vec3) : ℝ :=
  max 0 (Real.sin (sunHeightAngle babylonDir))

/-- The requested control mode, `_controlMode` (`'cesium' | 'babylon' | 'auto'`). -/
inductive ControlMode where
  | cesium
  | babylon
  | auto
deriving DecidableEq

/-- The effective control mode, `_actualControlMode` (`'cesium' | 'babylon'`). -/
inductive ActualMode where
  | cesium
  | babylon
deriving DecidableEq

/-- Pose of the `ArcRotateCamera` controller: orbit angles, distance to the
target, and the target point. -/
structure ArcPose where
  alpha : ℝ
  beta : ℝ
  radius : ℝ
  target : Vec3

/-- The orbit camera's world position determined by its pose (Babylon's
`ArcRotateCamera` places the camera at target + radius * (cos a sin b,
cos b, sin a sin b); `rebuildAnglesAndRadius` keeps pose and position
consistent). -/
noncomputable def arcCameraPosition (p : ArcPose) : Vec3 :=
  ⟨p.target.x + p.radius * Real.cos p.alpha * Real.sin p.beta,
   p.target.y + p.radius * Real.cos p.beta,
   p.target.z + p.radius * Real.sin p.alpha * Real.sin p.beta⟩

/-- The pose the source gives a freshly constructed `ArcRotateCamera`
(lines 255-262 and 974-981): alpha = -pi/2, beta = pi/3, radius = 300,
target = origin.  (The zoom/pitch limit and fov assignments of lines
269-275 / 984-988 configure interaction clamps and are not part of the
pose state the claims are about.) -/
noncomputable def initArcPose : ArcPose :=
  { alpha := -(Real.pi / 2), beta := Real.pi / 3, radius := 300, target := vZero }

/-- The `ArcRotateCamera` controller slot `_cameraController`:
whether `attachControl` is currently in effect, and its pose. -/
structure ArcController where
  attached : Bool
  pose : ArcPose

/-- The mutable state of a `CesiumBabylonFusion` instance, restricted to the
fields the claims are about.  The Cesium camera's position is carried in
cartographic form (`Cartographic.fromCartesian` of `viewer.camera.position`);
direction/up/fov synchronization, lights and DOM handles are modelled
separately or elided. -/
structure FusionState where
  controlMode : ControlMode
  actualControlMode : ActualMode
  autoSwitchHeight : ℝ
  isDisposed : Bool
  babylonCanvasPointerEventsAuto : Bool
  cesiumContainerPointerEventsAuto : Bool
  cameraController : Option ArcController
  activeIsController : Bool
  basePoint : Carto
  cesiumCameraPos : Carto
  freeCameraPos : Vec3

/-- Lines 883-887 (`getCurrentCameraHeight`): the cartographic height of the
Cesium camera position. -/
noncomputable def getCurrentCameraHeight (s : FusionState) : ℝ :=
  s.cesiumCameraPos.height

/-- Lines 452-487 (`moveBabylonCamera`), positional part: the free Babylon
camera is placed at the transform of the Cesium camera position (the
direction/up/fov writes touch only camera fields the claims do not
mention). -/
noncomputable def moveBabylonCamera (s : FusionState) : FusionState :=
  { s with freeCameraPos := cartesianToBabylon s.basePoint s.cesiumCameraPos }

/-- Lines 400-446 (`moveCesiumCamera`), positional part: returns unchanged if
no controller exists (line 401), else writes the controller's position,
converted back by `babylonPositionToCesium`, into the Cesium camera and
mirrors the controller position into the free camera (line 442). -/
noncomputable def moveCesiumCamera (s : FusionState) : FusionState :=
  match s.cameraController with
  | none => s
  | some c =>
      let babylonPos := arcCameraPosition c.pose
      { s with
          cesiumCameraPos := babylonPositionToCesium s.basePoint babylonPos,
          freeCameraPos := babylonPos }

/-- Lines 957-1000 (`updateControlsForMode`): pointer-event ownership and
controller attach/detach; entering babylon control lazily constructs the
controller (lines 973-989), detaches and re-attaches it, and makes it the
active camera. -/
noncomputable def updateControlsForMode (s : FusionState) (mode : ActualMode) : FusionState :=
  match mode with
  | ActualMode.cesium =>
      { s with
          babylonCanvasPointerEventsAuto := false,
          cesiumContainerPointerEventsAuto := true,
          cameraController := s.cameraController.map (fun c => { c with attached := false }) }
  | ActualMode.babylon =>
      let c := s.cameraController.getD { attached := false, pose := initArcPose }
      { s with
          babylonCanvasPointerEventsAuto := true,
          cesiumContainerPointerEventsAuto := false,
          cameraController := some { c with attached := true },
          activeIsController := true }

/-- Lines 917-939: the pose written into the controller when switching into
babylon control: target the local origin, clamp the distance into [50, 500],
alpha = 0, beta = pi/4. -/
noncomputable def switchToBabylonPose (babylonPos : Vec3) : ArcPose :=
  let targetPos : Vec3 := vZero
  let distance := vecDist babylonPos targetPos
  let safeDistance := max 50 (min distance 500)
  { alpha := 0, beta := Real.pi / 4, radius := safeDistance, target := targetPos }

/-- Lines 892-952 (`switchActualControlMode`): early return when the mode is
unchanged; otherwise snapshot the Cesium camera pose, flip
`_actualControlMode`, rewire controls, restore the snapshot, and sync the
matching Babylon camera — for cesium the free camera follows the restored
pose; for babylon the controller is re-targeted at the origin via
`switchToBabylonPose`.  The forced `scene.render()` and `console.log` have
no state effect. -/
noncomputable def switchActualControlMode (s : FusionState) (newMode : ActualMode) : FusionState :=
  if s.actualControlMode = newMode then s
  else
    let snapshotPos := s.cesiumCameraPos
    let s1 := { s with actualControlMode := newMode }
    let s2 := updateControlsForMode s1 newMode
    let s3 := { s2 with cesiumCameraPos := snapshotPos }
    match newMode with
    | ActualMode.cesium =>
        let s4 := moveBabylonCamera s3
        { s4 with activeIsController := false }
    | ActualMode.babylon =>
        match s3.cameraController with
        | none => s3
        | some c =>
            let babylonPos := cartesianToBabylon s3.basePoint s3.cesiumCameraPos
            { s3 with
                cameraController := some { c with pose := switchToBabylonPose babylonPos },
                activeIsController := true }

/-- Lines 872-873: the mode the altitude rule resolves to (strict comparison
`currentHeight > this._autoSwitchHeight`). -/
noncomputable def autoTargetMode (s : FusionState) : ActualMode :=
  if getCurrentCameraHeight s > s.autoSwitchHeight then ActualMode.cesium else ActualMode.babylon

/-- Lines 868-878 (`checkAndUpdateAutoMode`): in auto mode, switch when the
altitude rule's target differs from the current effective mode. -/
noncomputable def checkAndUpdateAutoMode (s : FusionState) : FusionState :=
  if s.controlMode ≠ ControlMode.auto then s
  else
    let targetMode := autoTargetMode s
    if s.actualControlMode ≠ targetMode then switchActualControlMode s targetMode else s

/-- Lines 1006-1024 (`setControlMode`): early return when the requested mode
is unchanged; for auto evaluate the altitude rule and switch; for a concrete
mode assign `_actualControlMode` FIRST and then call
`switchActualControlMode`, whose first-line guard therefore fires. -/
noncomputable def setControlMode (s : FusionState) (mode : ControlMode) : FusionState :=
  if s.controlMode = mode then s
  else
    let s1 := { s with controlMode := mode }
    match mode with
    | ControlMode.auto =>
        let targetMode : ActualMode :=
          if getCurrentCameraHeight s1 > s1.autoSwitchHeight then ActualMode.cesium
          else ActualMode.babylon
        switchActualControlMode s1 targetMode
    | ControlMode.cesium =>
        switchActualControlMode { s1 with actualControlMode := ActualMode.cesium } ActualMode.cesium
    | ControlMode.babylon =>
        switchActualControlMode { s1 with actualControlMode := ActualMode.babylon } ActualMode.babylon

/-- The position of the scene's active camera: the controller when it is the
active camera, otherwise the free camera.  This is the viewpoint the Babylon
scene renders from. -/
noncomputable def renderedCameraPos (s : FusionState) : Vec3 :=
  match s.cameraController, s.activeIsController with
  | some c, true => arcCameraPosition c.pose
  | _, _ => s.freeCameraPos

/-- Construction options relevant to the claims (`controlMode ?? 'cesium'`,
`autoSwitchHeight ?? 1000`; the base point and the Cesium camera's initial
position are passed separately). -/
structure FusionOptions where
  controlMode : Option ControlMode
  autoSwitchHeight : Option ℝ

/-- Lines 135-163 with `initializeCanvases` (184-190) and
`initializeBabylon` (241-304): initial state after construction.
For auto the effective mode starts as cesium (line 148) and a detached
controller is pre-created (lines 284-299); for babylon the controller is
created attached and is the scene's first (hence active) camera; the free
camera starts at (0, 50, 200). -/
noncomputable def initState (opts : FusionOptions) (basePoint initialCameraPos : Carto) :
    FusionState :=
  let cm := opts.controlMode.getD ControlMode.cesium
  let actual : ActualMode :=
    match cm with
    | ControlMode.auto => ActualMode.cesium
    | ControlMode.cesium => ActualMode.cesium
    | ControlMode.babylon => ActualMode.babylon
  { controlMode := cm,
    actualControlMode := actual,
    autoSwitchHeight := opts.autoSwitchHeight.getD 1000,
    isDisposed := false,
    babylonCanvasPointerEventsAuto := decide (actual = ActualMode.babylon),
    cesiumContainerPointerEventsAuto := decide (actual = ActualMode.cesium),
    cameraController :=
      if actual = ActualMode.babylon then some { attached := true, pose := initArcPose }
      else if cm = ControlMode.auto then some { attached := false, pose := initArcPose }
      else none,
    activeIsController := decide (actual = ActualMode.babylon),
    basePoint := basePoint,
    cesiumCameraPos := initialCameraPos,
    freeCameraPos := ⟨0, 50, 200⟩ }

/-- Lines 376-393 and 325-349: the body of one frame — auto-mode check, then
the camera sync selected by the effective mode (the lighting update mutates
only light state, modelled separately; both renders have no state effect). -/
noncomputable def frameBody (s : FusionState) : FusionState :=
  let s1 := if s.controlMode = ControlMode.auto then checkAndUpdateAutoMode s else s
  if s1.actualControlMode = ActualMode.cesium then moveBabylonCamera s1 else moveCesiumCamera s1

/-- Lines 371-394 (`render`): throws `Cannot render after disposal` when
disposed, else performs one frame. -/
noncomputable def render (s : FusionState) : Except String FusionState :=
  if s.isDisposed then Except.error "Cannot render after disposal"
  else Except.ok (frameBody s)

/-- Lines 320-355 (`setupRenderLoop`): one iteration of the automatic loop —
a disposed instance is silently skipped by the flag check at loop entry
(line 323); the body is wrapped in try/catch so the pure embedding is a
total function. -/
noncomputable def renderLoopTick (s : FusionState) : FusionState :=
  if s.isDisposed then s else frameBody s

/-- A Babylon `PickingInfo`: the mesh hit by a pick, when any. -/
structure PickInfo (Mesh : Type) where
  pickedMesh : Option Mesh

/-- Lines 748-776 (`setupCesiumEventHandling`): the LEFT_CLICK handler the
source registers when a callback is configured.  `pickPosition` is the
globe scene's `viewer.scene.pickPosition`, `scenePick` the local scene's
`scene.pick` at the same screen coordinates.  The result is `some a` when
the callback `onMeshPicked` is invoked with argument `a`, and `none` when
the handler returns without invoking it.  (The `babylonPos` computed on
lines 765-766 is never used.) -/
def leftClickHandler {Pos Cart Mesh : Type}
    (pickPosition : Pos → Option Cart)
    (scenePick : Pos → Option (PickInfo Mesh))
    (click : Pos) : Option (Option Mesh) :=
  match pickPosition click with
  | some _ =>
      some (match scenePick click with
            | some pickResult => pickResult.pickedMesh
            | none => none)
  | none => none

/-! Helper lemmas about vectors, norms and 3x3 matrices. -/

theorem normSq_nonneg (v : Vec3) : 0 ≤ normSq v := by
  unfold normSq
  positivity

theorem eq_zero_of_normSq_eq_zero (v : Vec3) (h : normSq v = 0) : v = vZero := by
  simp only [normSq] at h
  have hx : v.x ^ 2 = 0 := by nlinarith [sq_nonneg v.x, sq_nonneg v.y, sq_nonneg v.z]
  have hy : v.y ^ 2 = 0 := by nlinarith [sq_nonneg v.x, sq_nonneg v.y, sq_nonneg v.z]
  have hz : v.z ^ 2 = 0 := by nlinarith [sq_nonneg v.x, sq_nonneg v.y, sq_nonneg v.z]
  have h2 : (2 : ℕ) ≠ 0 := by norm_num
  ext
  · exact (pow_eq_zero_iff h2).mp hx
  · exact (pow_eq_zero_iff h2).mp hy
  · exact (pow_eq_zero_iff h2).mp hz

theorem normSq_pos (v : Vec3) (h : v ≠ vZero) : 0 < normSq v := by
  rcases lt_or_eq_of_le (normSq_nonneg v) with hlt | heq
  · exact hlt
  · exact absurd (eq_zero_of_normSq_eq_zero v heq.symm) h

theorem vecNorm_pos (v : Vec3) (h : v ≠ vZero) : 0 < vecNorm v :=
  Real.sqrt_pos.mpr (normSq_pos v h)

theorem vecNorm_sq (v : Vec3) : vecNorm v ^ 2 = normSq v :=
  Real.sq_sqrt (normSq_nonneg v)

theorem normSq_eq_one_of_vecNorm_one (v : Vec3) (h : vecNorm v = 1) : normSq v = 1 := by
  have h2 := vecNorm_sq v
  rw [h] at h2
  simpa using h2.symm

theorem normSq_normalizeV (v : Vec3) (h : v ≠ vZero) : normSq (normalizeV v) = 1 := by
  have hne : vecNorm v ≠ 0 := ne_of_gt (vecNorm_pos v h)
  have hsq := vecNorm_sq v
  simp only [normSq] at hsq ⊢
  simp only [normalizeV, div_pow]
  field_simp
  linarith [hsq]

theorem vecNorm_normalizeV (v : Vec3) (h : v ≠ vZero) : vecNorm (normalizeV v) = 1 := by
  rw [vecNorm, normSq_normalizeV v h, Real.sqrt_one]

theorem mulVec_adjugate (m : Mat3) (v : Vec3) :
    m.mulVec (m.adjugate.mulVec v) = smulV m.det v := by
  ext <;> (simp only [Mat3.mulVec, Mat3.adjugate, Mat3.det, smulV]; ring)

theorem inv_mulVec_eq (m : Mat3) (v : Vec3) :
    m.inv.mulVec v = smulV (1 / m.det) (m.adjugate.mulVec v) := by
  ext <;> (simp only [Mat3.inv, Mat3.mulVec, Mat3.adjugate, smulV]; ring)

theorem mulVec_smulV (m : Mat3) (k : ℝ) (v : Vec3) :
    m.mulVec (smulV k v) = smulV k (m.mulVec v) := by
  ext <;> (simp only [Mat3.mulVec, smulV]; ring)

theorem mulVec_inv_cancel (m : Mat3) (hdet : m.det ≠ 0) (v : Vec3) :
    m.mulVec (m.inv.mulVec v) = v := by
  rw [inv_mulVec_eq, mulVec_smulV, mulVec_adjugate]
  ext <;> (simp only [smulV]; field_simp)

theorem mulVec_vZero (m : Mat3) : m.mulVec vZero = vZero := by
  ext <;> simp [Mat3.mulVec, vZero]

theorem det_transpose (m : Mat3) : m.transpose.det = m.det := by
  simp only [Mat3.det, Mat3.transpose]
  ring

theorem det_mul (a b : Mat3) : (a.mul b).det = a.det * b.det := by
  simp only [Mat3.det, Mat3.mul]
  ring

theorem det_idMat3 : idMat3.det = 1 := by
  simp only [Mat3.det, idMat3]
  norm_num

theorem det_ne_zero_of_orthogonal (m : Mat3) (h : m.IsOrthogonal) : m.det ≠ 0 := by
  have h1 : m.transpose.det * m.det = 1 := by
    rw [← det_mul, h.1, det_idMat3]
  intro hz
  rw [hz, mul_zero] at h1
  exact one_ne_zero h1.symm

theorem normSq_mulVec_of_orthogonal (m : Mat3) (h : m.transpose.mul m = idMat3) (v : Vec3) :
    normSq (m.mulVec v) = normSq v := by
  have h00 := congrArg Mat3.m00 h
  have h01 := congrArg Mat3.m01 h
  have h02 := congrArg Mat3.m02 h
  have h11 := congrArg Mat3.m11 h
  have h12 := congrArg Mat3.m12 h
  have h22 := congrArg Mat3.m22 h
  simp only [Mat3.mul, Mat3.transpose, idMat3] at h00 h01 h02 h11 h12 h22
  simp only [normSq, Mat3.mulVec]
  linear_combination v.x ^ 2 * h00 + 2 * v.x * v.y * h01 + 2 * v.x * v.z * h02 +
    v.y ^ 2 * h11 + 2 * v.y * v.z * h12 + v.z ^ 2 * h22

/-- A unit vector along the first axis, used to instantiate witnesses. -/
noncomputable def unitX : Vec3 := ⟨1, 0, 0⟩

/-- C7: for every direction vector D of unit magnitude and every invertible
ENU frame matrix, `babylonDirectionToCesium` composed with
`cesiumDirectionToBabylon` recovers D exactly (hence certainly within 1e-6
after normalization); both maps are built from the linear ENU rotation and
the axis permutation only, with no translation. -/
theorem direction_roundTrip (enu : Mat3) (d : Vec3)
    (hdet : enu.det ≠ 0) (hunit : vecNorm d = 1) :
    babylonDirectionToCesium enu (cesiumDirectionToBabylon enu d) = d := by
  have hd0 : d ≠ vZero := by
    intro h0
    rw [h0] at hunit
    have hz : vecNorm vZero = 0 := by
      simp [vecNorm, normSq, vZero]
    rw [hz] at hunit
    exact zero_ne_one hunit
  set L := enu.inv.mulVec d with hLdef
  have hML : enu.mulVec L = d := mulVec_inv_cancel enu hdet d
  have hL0 : L ≠ vZero := by
    intro h0
    rw [h0, mulVec_vZero] at hML
    exact hd0 hML.symm
  have hnpos : 0 < vecNorm L := vecNorm_pos L hL0
  have hkpos : 0 < 1 / vecNorm L := one_div_pos.mpr hnpos
  have hnorm1 : normalizeV L = smulV (1 / vecNorm L) L := by
    ext <;> (simp only [normalizeV, smulV]; ring)
  have hstep : enu.mulVec (normalizeV L) = smulV (1 / vecNorm L) d := by
    rw [hnorm1, mulVec_smulV, hML]
  have hnormSmul : vecNorm (smulV (1 / vecNorm L) d) = 1 / vecNorm L := by
    have h1 : normSq (smulV (1 / vecNorm L) d) = (1 / vecNorm L) ^ 2 * normSq d := by
      simp only [normSq, smulV]
      ring
    rw [vecNorm, h1, normSq_eq_one_of_vecNorm_one d hunit, mul_one]
    exact Real.sqrt_sq (le_of_lt hkpos)
  have hk : (1 / vecNorm L) ≠ 0 := ne_of_gt hkpos
  have hn0 : vecNorm L ≠ 0 := ne_of_gt hnpos
  have hfinal : normalizeV (smulV (1 / vecNorm L) d) = d := by
    ext <;> (simp only [normalizeV]; rw [hnormSmul]; simp only [smulV]; field_simp)
  calc babylonDirectionToCesium enu (cesiumDirectionToBabylon enu d)
      = normalizeV (enu.mulVec (normalizeV L)) := rfl
    _ = normalizeV (smulV (1 / vecNorm L) d) := by rw [hstep]
    _ = d := hfinal

/-- C7 witness: the round trip evaluated at the identity ENU frame and the
unit direction (1, 0, 0). -/
theorem direction_roundTrip_witness :
    idMat3.det ≠ 0 ∧ vecNorm unitX = 1 ∧
      babylonDirectionToCesium idMat3 (cesiumDirectionToBabylon idMat3 unitX) = unitX := by
  have h1 : idMat3.det ≠ 0 := by
    rw [det_idMat3]
    norm_num
  have h2 : vecNorm unitX = 1 := by
    have hs : normSq unitX = 1 := by
      norm_num [normSq, unitX]
    rw [vecNorm, hs, Real.sqrt_one]
  exact ⟨h1, h2, direction_roundTrip idMat3 unitX h1 h2⟩

theorem idMat3_orthogonal : idMat3.IsOrthogonal := by
  constructor <;> (ext <;> norm_num [Mat3.mul, Mat3.transpose, idMat3])

/-- C8: whenever the lighting synchronizer runs (the ENU frame matrix is a
rotation and the sun is not exactly at the base point, so the normalized
direction exists), the computed intensity lies in [0, 1], is 0 whenever the
elevation angle is at or below 0, and equals max(0, up-component) — the
evaluated form of max(0, sin(arcsin(up-component))). -/
theorem lighting_intensity_bounds (enu : Mat3) (sunPositionFixed basePointEcef : Vec3)
    (horth : enu.IsOrthogonal) (hne : Vec3.sub sunPositionFixed basePointEcef ≠ vZero) :
    0 ≤ sunIntensity (babylonSunDirection enu sunPositionFixed basePointEcef) ∧
    sunIntensity (babylonSunDirection enu sunPositionFixed basePointEcef) ≤ 1 ∧
    (sunHeightAngle (babylonSunDirection enu sunPositionFixed basePointEcef) ≤ 0 →
      sunIntensity (babylonSunDirection enu sunPositionFixed basePointEcef) = 0) ∧
    sunIntensity (babylonSunDirection enu sunPositionFixed basePointEcef) =
      max 0 (babylonSunDirection enu sunPositionFixed basePointEcef).y := by
  set u := normalizeV (Vec3.sub sunPositionFixed basePointEcef) with hu
  have hunit : vecNorm u = 1 := vecNorm_normalizeV _ hne
  have hdet : enu.det ≠ 0 := det_ne_zero_of_orthogonal enu horth
  set L := enu.inv.mulVec u with hL
  have hML : enu.mulVec L = u := mulVec_inv_cancel enu hdet u
  have hnsL : normSq L = 1 := by
    have h1 : normSq (enu.mulVec L) = normSq L := normSq_mulVec_of_orthogonal enu horth.1 L
    rw [hML] at h1
    rw [← h1]
    exact normSq_eq_one_of_vecNorm_one u hunit
  have hyval : (babylonSunDirection enu sunPositionFixed basePointEcef).y = L.z := rfl
  have hz2 : L.z ^ 2 ≤ 1 := by
    simp only [normSq] at hnsL
    nlinarith [sq_nonneg L.x, sq_nonneg L.y]
  have hzlo : -1 ≤ L.z := by nlinarith
  have hzhi : L.z ≤ 1 := by nlinarith
  have hsin : sunIntensity (babylonSunDirection enu sunPositionFixed basePointEcef) =
      max 0 L.z := by
    rw [sunIntensity, sunHeightAngle, hyval, Real.sin_arcsin hzlo hzhi]
  refine ⟨?_, ?_, ?_, ?_⟩
  · rw [hsin]
    exact le_max_left 0 L.z
  · rw [hsin]
    exact max_le (by norm_num) hzhi
  · intro hangle
    rw [hsin]
    have hy0 : L.z ≤ 0 := by
      by_contra hpos
      push_neg at hpos
      have harc := Real.arcsin_pos.mpr hpos
      rw [sunHeightAngle, hyval] at hangle
      linarith
    exact max_eq_left hy0
  · rw [hsin, hyval]

/-- C8 witness: the intensity bounds evaluated at the identity ENU frame with
the sun one unit along the third axis from the base point. -/
theorem lighting_intensity_bounds_witness :
    0 ≤ sunIntensity (babylonSunDirection idMat3 ⟨0, 0, 1⟩ vZero) ∧
      sunIntensity (babylonSunDirection idMat3 ⟨0, 0, 1⟩ vZero) ≤ 1 := by
  have hne : Vec3.sub ⟨0, 0, 1⟩ vZero ≠ vZero := by
    intro h0
    have hc := congrArg Vec3.z h0
    norm_num [Vec3.sub, vZero] at hc
  have h := lighting_intensity_bounds idMat3 ⟨0, 0, 1⟩ vZero idMat3_orthogonal hne
  exact ⟨h.1, h.2.1⟩

theorem wgs84FromRadians_equator (h : ℝ) :
    wgs84FromRadians ⟨0, 0, h⟩ = ⟨wgs84SemiMajor + h, 0, 0⟩ := by
  ext <;> simp [wgs84FromRadians, Real.sqrt_one]

/-- A geodetic point 100 meters directly above the cartographic origin. -/
noncomputable def c3Target : Carto := ⟨0, 0, 100⟩

/-- C3 counterexample: with the base point at (lon 0, lat 0, h 0) and P the
point 100 meters directly above it (well within a few kilometers),
`babylonToCartesian (cartesianToBabylon P)` lands more than 1e-3 meters from
P — in fact about 141 meters away, because `babylonToCartesian` adds the
swizzled local vector directly to the base point in ECEF instead of
inverting the geodetic scalings. -/
theorem babylonToCartesian_not_inverse :
    1 / 1000 < vecDist (babylonToCartesian cartoZero (cartesianToBabylon cartoZero c3Target))
      (wgs84FromRadians c3Target) := by
  have hbase := wgs84FromRadians_equator 0
  have htarget : wgs84FromRadians c3Target = ⟨wgs84SemiMajor + 100, 0, 0⟩ := by
    have hc : c3Target = (⟨0, 0, 100⟩ : Carto) := rfl
    rw [hc]
    exact wgs84FromRadians_equator 100
  have hlocal : cartesianToBabylon cartoZero c3Target = ⟨0, 100, 0⟩ := by
    ext <;> simp [cartesianToBabylon, cartoZero, c3Target]
  have hback : babylonToCartesian cartoZero (cartesianToBabylon cartoZero c3Target) =
      ⟨wgs84SemiMajor, 0, 100⟩ := by
    rw [hlocal]
    show Vec3.add (wgs84FromRadians cartoZero) ⟨0, 0, 100⟩ = _
    have hz : cartoZero = (⟨0, 0, 0⟩ : Carto) := rfl
    rw [hz, hbase]
    ext <;> simp [Vec3.add]
  rw [hback, htarget]
  have hd : vecDist (⟨wgs84SemiMajor, 0, 100⟩ : Vec3) ⟨wgs84SemiMajor + 100, 0, 0⟩ =
      Real.sqrt 20000 := by
    rw [vecDist]
    have hsub : Vec3.sub (⟨wgs84SemiMajor, 0, 100⟩ : Vec3) ⟨wgs84SemiMajor + 100, 0, 0⟩ =
        ⟨-100, 0, 100⟩ := by
      ext <;> simp [Vec3.sub]
    rw [hsub, vecNorm]
    norm_num [normSq]
  rw [hd]
  rw [Real.lt_sqrt (by norm_num)]
  norm_num

/-- C3 amended theorem: the exact algebraic inverse of `cartesianToBabylon`
is the private `babylonPositionToCesium` (not the public
`babylonToCartesian`): away from the poles it recovers
longitude/latitude/height exactly via the inverse R cos(baseLat) and R
scalings. -/
theorem babylonPositionToCesium_inverse (base target : Carto)
    (hcos : Real.cos base.latitude ≠ 0) :
    babylonPositionToCesium base (cartesianToBabylon base target) = target := by
  have hR : earthRadius ≠ 0 := by
    norm_num [earthRadius]
  ext
  · show base.longitude +
        earthRadius * Real.cos base.latitude * (target.longitude - base.longitude) /
          (earthRadius * Real.cos base.latitude) = target.longitude
    field_simp
  · show base.latitude + earthRadius * (target.latitude - base.latitude) / earthRadius =
        target.latitude
    field_simp
  · show base.height + (target.height - base.height) = target.height
    ring

/-- C3 witness: the exact inverse evaluated with the base at the cartographic
origin (cos 0 = 1) and the target at (lon 1, lat 1, h 1). -/
theorem babylonPositionToCesium_inverse_witness :
    babylonPositionToCesium cartoZero (cartesianToBabylon cartoZero ⟨1, 1, 1⟩) =
      (⟨1, 1, 1⟩ : Carto) := by
  have hcos : Real.cos (cartoZero.latitude) ≠ 0 := by
    show Real.cos 0 ≠ 0
    rw [Real.cos_zero]
    norm_num
  exact babylonPositionToCesium_inverse cartoZero ⟨1, 1, 1⟩ hcos

/-! Helper lemmas about the control-mode state machine. -/

theorem moveBabylonCamera_actual (t : FusionState) :
    (moveBabylonCamera t).actualControlMode = t.actualControlMode := rfl

theorem moveCesiumCamera_actual (t : FusionState) :
    (moveCesiumCamera t).actualControlMode = t.actualControlMode := by
  unfold moveCesiumCamera
  split <;> rfl

theorem switchActual_preserves (s : FusionState) (m : ActualMode) :
    (switchActualControlMode s m).controlMode = s.controlMode ∧
    (switchActualControlMode s m).autoSwitchHeight = s.autoSwitchHeight ∧
    (switchActualControlMode s m).cesiumCameraPos = s.cesiumCameraPos ∧
    (switchActualControlMode s m).basePoint = s.basePoint ∧
    (switchActualControlMode s m).isDisposed = s.isDisposed := by
  unfold switchActualControlMode
  split
  · exact ⟨rfl, rfl, rfl, rfl, rfl⟩
  · cases m
    · exact ⟨rfl, rfl, rfl, rfl, rfl⟩
    · cases hc : (updateControlsForMode { s with actualControlMode := ActualMode.babylon }
          ActualMode.babylon).cameraController <;>
        exact ⟨rfl, rfl, rfl, rfl, rfl⟩

theorem switchActual_actual (s : FusionState) (m : ActualMode) :
    (switchActualControlMode s m).actualControlMode = m := by
  unfold switchActualControlMode
  split
  case isTrue h => exact h
  case isFalse h =>
    cases m
    · rfl
    · cases hc : (updateControlsForMode { s with actualControlMode := ActualMode.babylon }
          ActualMode.babylon).cameraController <;> rfl

theorem switchActual_noop (t : FusionState) (m : ActualMode) (h : t.actualControlMode = m) :
    switchActualControlMode t m = t := by
  unfold switchActualControlMode
  rw [if_pos h]

theorem check_preserves (s : FusionState) :
    (checkAndUpdateAutoMode s).controlMode = s.controlMode ∧
    (checkAndUpdateAutoMode s).autoSwitchHeight = s.autoSwitchHeight ∧
    (checkAndUpdateAutoMode s).cesiumCameraPos = s.cesiumCameraPos := by
  unfold checkAndUpdateAutoMode
  split
  · exact ⟨rfl, rfl, rfl⟩
  · dsimp only
    split
    · have h := switchActual_preserves s (autoTargetMode s)
      exact ⟨h.1, h.2.1, h.2.2.1⟩
    · exact ⟨rfl, rfl, rfl⟩

theorem check_actual (t : FusionState) (h : t.controlMode = ControlMode.auto) :
    (checkAndUpdateAutoMode t).actualControlMode = autoTargetMode t := by
  unfold checkAndUpdateAutoMode
  rw [if_neg (by simp [h])]
  dsimp only
  split
  case isTrue h2 => exact switchActual_actual t (autoTargetMode t)
  case isFalse h2 => exact not_ne_iff.mp h2

theorem check_noop (t : FusionState) (h : t.actualControlMode = autoTargetMode t) :
    checkAndUpdateAutoMode t = t := by
  unfold checkAndUpdateAutoMode
  split
  · rfl
  · simp [h]

/-- A running auto-mode state with threshold 1000 and the Cesium camera at
cartographic height h, used to instantiate witnesses. -/
noncomputable def autoState (h : ℝ) : FusionState :=
  { controlMode := ControlMode.auto,
    actualControlMode := ActualMode.cesium,
    autoSwitchHeight := 1000,
    isDisposed := false,
    babylonCanvasPointerEventsAuto := false,
    cesiumContainerPointerEventsAuto := true,
    cameraController := some { attached := false, pose := initArcPose },
    activeIsController := false,
    basePoint := cartoZero,
    cesiumCameraPos := ⟨0, 0, h⟩,
    freeCameraPos := vZero }

/-- C5: each frame in auto mode the effective mode is resolved by the strict
comparison height > threshold — at threshold 1000, height 1001 resolves
cesium and height 999 resolves babylon; a switch happens only when the
resolved target differs from the current effective mode (otherwise the state
is untouched); and the check is a total function that is idempotent, so
repeated evaluation — in particular at exactly 1000 — cannot throw or switch
more than once within a frame. -/
theorem autoSwitch_boundary (s : FusionState)
    (hAuto : s.controlMode = ControlMode.auto)
    (hThr : s.autoSwitchHeight = 1000) :
    (checkAndUpdateAutoMode s).actualControlMode = autoTargetMode s ∧
    (getCurrentCameraHeight s = 1001 →
      (checkAndUpdateAutoMode s).actualControlMode = ActualMode.cesium) ∧
    (getCurrentCameraHeight s = 999 →
      (checkAndUpdateAutoMode s).actualControlMode = ActualMode.babylon) ∧
    (autoTargetMode s = s.actualControlMode → checkAndUpdateAutoMode s = s) ∧
    checkAndUpdateAutoMode (checkAndUpdateAutoMode s) = checkAndUpdateAutoMode s := by
  have hmain : (checkAndUpdateAutoMode s).actualControlMode = autoTargetMode s :=
    check_actual s hAuto
  refine ⟨hmain, ?_, ?_, ?_, ?_⟩
  · intro h1001
    rw [hmain, autoTargetMode, h1001, hThr]
    norm_num
  · intro h999
    rw [hmain, autoTargetMode, h999, hThr]
    norm_num
  · intro heq
    exact check_noop s heq.symm
  · have hpres := check_preserves s
    have htar : autoTargetMode (checkAndUpdateAutoMode s) = autoTargetMode s := by
      unfold autoTargetMode getCurrentCameraHeight
      rw [hpres.2.2, hpres.2.1]
    exact check_noop (checkAndUpdateAutoMode s) (by rw [hmain, htar])

/-- C5 witness: the boundary behavior evaluated at a concrete auto-mode state
with threshold 1000 and camera height 1001. -/
theorem autoSwitch_boundary_witness :
    (checkAndUpdateAutoMode (autoState 1001)).actualControlMode = ActualMode.cesium :=
  (autoSwitch_boundary (autoState 1001) rfl rfl).2.1 rfl

/-- A disposed instance, used to instantiate witnesses. -/
noncomputable def disposedState : FusionState :=
  { autoState 0 with isDisposed := true }

/-- C9: calling render() on a disposed instance raises the explicit error
`Cannot render after disposal` to the caller, while an automatic-render-loop
iteration on a disposed instance is a silent no-op (skipped by the
disposed-flag check) and cannot raise. -/
theorem render_after_dispose (s : FusionState) (h : s.isDisposed = true) :
    render s = Except.error "Cannot render after disposal" ∧ renderLoopTick s = s := by
  constructor
  · unfold render
    rw [if_pos h]
  · unfold renderLoopTick
    rw [if_pos h]

/-- C9 witness: the post-disposal behavior evaluated at a concrete disposed
state. -/
theorem render_after_dispose_witness :
    render disposedState = Except.error "Cannot render after disposal" ∧
      renderLoopTick disposedState = disposedState :=
  render_after_dispose disposedState rfl

/-- C10: calling setControlMode with the currently requested mode is a
complete no-op in every state — the early return fires before the effective
mode, the input wiring or (for auto) the altitude rule is touched. -/
theorem setControlMode_same_mode_noop (s : FusionState) :
    setControlMode s s.controlMode = s := by
  unfold setControlMode
  rw [if_pos rfl]

/-- Options requesting the concrete globe mode ('cesium'). -/
noncomputable def c2Options : FusionOptions :=
  { controlMode := some ControlMode.cesium, autoSwitchHeight := none }

/-- A freshly constructed instance in cesium mode: globe container owns
pointer events, no controller exists. -/
noncomputable def c2Start : FusionState := initState c2Options cartoZero cartoZero

/-- C2 (code bug): `setControlMode('babylon')` on a cesium-mode instance
assigns the effective mode FIRST (line 1019) and only then calls
`switchActualControlMode`, whose first-line guard (line 893) sees the modes
already equal and returns — so the full switch procedure never runs: the
babylon canvas still has pointer events disabled, the globe container still
enabled, and no orbit controller was created or attached, although the
effective mode now reads babylon. -/
theorem setControlMode_concrete_skips_rewire :
    (setControlMode c2Start ControlMode.babylon).actualControlMode = ActualMode.babylon ∧
    (setControlMode c2Start ControlMode.babylon).babylonCanvasPointerEventsAuto = false ∧
    (setControlMode c2Start ControlMode.babylon).cesiumContainerPointerEventsAuto = true ∧
    (setControlMode c2Start ControlMode.babylon).cameraController = none :=
  ⟨rfl, rfl, rfl, rfl⟩

/-- Options requesting auto mode. -/
noncomputable def c4Options : FusionOptions :=
  { controlMode := some ControlMode.auto, autoSwitchHeight := none }

/-- C4 counterexample: constructing in auto mode with the globe camera at
height 0 — at or below the default threshold 1000, where the claim requires
the local ('babylon') mode — still yields effective mode cesium: the
constructor never evaluates the altitude rule (line 148 maps auto to cesium
unconditionally). -/
theorem initState_auto_ignores_altitude :
    (initState c4Options cartoZero cartoZero).actualControlMode = ActualMode.cesium ∧
    (initState c4Options cartoZero cartoZero).actualControlMode ≠ ActualMode.babylon ∧
    ¬ (getCurrentCameraHeight (initState c4Options cartoZero cartoZero) >
        (initState c4Options cartoZero cartoZero).autoSwitchHeight) := by
  have h1 : (initState c4Options cartoZero cartoZero).actualControlMode = ActualMode.cesium := rfl
  refine ⟨h1, ?_, ?_⟩
  · rw [h1]
    exact fun hc => ActualMode.noConfusion hc
  · show ¬ ((0 : ℝ) > 1000)
    norm_num

/-- C4 corrected: at construction the effective mode equals the requested
mode when that mode is concrete, but when the requested mode is auto it is
initialized to cesium unconditionally (no altitude evaluation); the altitude
rule is first applied by the first frame, which resolves cesium above the
threshold and babylon at or below it. -/
theorem initState_effectiveMode (opts : FusionOptions) (bp camPos : Carto) :
    (opts.controlMode.getD ControlMode.cesium = ControlMode.cesium →
      (initState opts bp camPos).actualControlMode = ActualMode.cesium) ∧
    (opts.controlMode.getD ControlMode.cesium = ControlMode.babylon →
      (initState opts bp camPos).actualControlMode = ActualMode.babylon) ∧
    (opts.controlMode.getD ControlMode.cesium = ControlMode.auto →
      (initState opts bp camPos).actualControlMode = ActualMode.cesium) ∧
    (opts.controlMode.getD ControlMode.cesium = ControlMode.auto →
      (frameBody (initState opts bp camPos)).actualControlMode =
        (if camPos.height > opts.autoSwitchHeight.getD 1000 then ActualMode.cesium
         else ActualMode.babylon)) := by
  refine ⟨?_, ?_, ?_, ?_⟩
  · intro h
    simp [initState, h]
  · intro h
    simp [initState, h]
  · intro h
    simp [initState, h]
  · intro h
    have hs : (initState opts bp camPos).controlMode = ControlMode.auto := by
      simp [initState, h]
    have hsync : (frameBody (initState opts bp camPos)).actualControlMode =
        (checkAndUpdateAutoMode (initState opts bp camPos)).actualControlMode := by
      unfold frameBody
      rw [if_pos hs]
      dsimp only
      split
      · exact moveBabylonCamera_actual _
      · exact moveCesiumCamera_actual _
    rw [hsync, check_actual _ hs]
    rfl

/-- C4 witness: the amended behavior evaluated concretely — construction in
auto mode with the camera at height 500 starts in cesium, and the first frame
resolves babylon. -/
theorem initState_effectiveMode_witness :
    (initState c4Options cartoZero ⟨0, 0, 500⟩).actualControlMode = ActualMode.cesium ∧
      (frameBody (initState c4Options cartoZero ⟨0, 0, 500⟩)).actualControlMode =
        ActualMode.babylon := by
  have h := initState_effectiveMode c4Options cartoZero ⟨0, 0, 500⟩
  refine ⟨h.2.2.1 rfl, ?_⟩
  have h2 := h.2.2.2 rfl
  rw [h2, if_neg]
  show ¬ ((500 : ℝ) > Option.getD none 1000)
  norm_num

/-- A cesium-controlled instance whose globe camera sits 1000 meters east of
the base point at height 0 (below the auto threshold), with the free Babylon
camera synced to it. -/
noncomputable def c1Start : FusionState :=
  { controlMode := ControlMode.cesium,
    actualControlMode := ActualMode.cesium,
    autoSwitchHeight := 1000,
    isDisposed := false,
    babylonCanvasPointerEventsAuto := false,
    cesiumContainerPointerEventsAuto := true,
    cameraController := none,
    activeIsController := false,
    basePoint := cartoZero,
    cesiumCameraPos := ⟨1000 / earthRadius, 0, 0⟩,
    freeCameraPos := cartesianToBabylon cartoZero ⟨1000 / earthRadius, 0, 0⟩ }

/-- C1 counterexample: a `setControlMode('auto')` call on `c1Start` (camera
height 0, at or below the threshold) switches into babylon control, and the
rendered viewpoint jumps from (1000, 0, 0) to the canned orbit pose
targeting the origin — a displacement of about 737 meters, far beyond the
claimed 1 meter: the switch procedure re-targets the orbit camera instead of
restoring the snapshotted pose. -/
theorem modeSwitch_displaces_viewpoint :
    1 < vecDist (renderedCameraPos c1Start)
        (renderedCameraPos (setControlMode c1Start ControlMode.auto)) := by
  have hR : earthRadius ≠ 0 := by norm_num [earthRadius]
  have hfree : cartesianToBabylon cartoZero ⟨1000 / earthRadius, 0, 0⟩ =
      (⟨1000, 0, 0⟩ : Vec3) := by
    ext <;> simp [cartesianToBabylon, cartoZero]
    field_simp
  have hbefore : renderedCameraPos c1Start = (⟨1000, 0, 0⟩ : Vec3) := by
    show c1Start.freeCameraPos = _
    show cartesianToBabylon cartoZero ⟨1000 / earthRadius, 0, 0⟩ = _
    exact hfree
  have h01 : ¬ ((0 : ℝ) > 1000) := by norm_num
  have hkey : setControlMode c1Start ControlMode.auto =
      switchActualControlMode { c1Start with controlMode := ControlMode.auto }
        (if (0 : ℝ) > 1000 then ActualMode.cesium else ActualMode.babylon) := rfl
  have hroute : renderedCameraPos
      (switchActualControlMode { c1Start with controlMode := ControlMode.auto }
        ActualMode.babylon) =
      arcCameraPosition (switchToBabylonPose
        (cartesianToBabylon cartoZero ⟨1000 / earthRadius, 0, 0⟩)) := rfl
  have hdist0 : vecDist (⟨1000, 0, 0⟩ : Vec3) vZero = 1000 := by
    have hsub : Vec3.sub (⟨1000, 0, 0⟩ : Vec3) vZero = ⟨1000, 0, 0⟩ := by
      ext <;> simp [Vec3.sub, vZero]
    rw [vecDist, hsub, vecNorm,
      show normSq (⟨1000, 0, 0⟩ : Vec3) = 1000 ^ 2 by norm_num [normSq]]
    exact Real.sqrt_sq (by norm_num)
  have hr : (switchToBabylonPose (⟨1000, 0, 0⟩ : Vec3)).radius = 500 := by
    show max 50 (min (vecDist (⟨1000, 0, 0⟩ : Vec3) vZero) 500) = (500 : ℝ)
    rw [hdist0, min_eq_right (by norm_num : (500 : ℝ) ≤ 1000),
      max_eq_right (by norm_num : (50 : ℝ) ≤ 500)]
  have halpha : (switchToBabylonPose (⟨1000, 0, 0⟩ : Vec3)).alpha = 0 := rfl
  have hbeta : (switchToBabylonPose (⟨1000, 0, 0⟩ : Vec3)).beta = Real.pi / 4 := rfl
  have htgt : (switchToBabylonPose (⟨1000, 0, 0⟩ : Vec3)).target = vZero := rfl
  have harc : arcCameraPosition (switchToBabylonPose (⟨1000, 0, 0⟩ : Vec3)) =
      ⟨500 * (Real.sqrt 2 / 2), 500 * (Real.sqrt 2 / 2), 0⟩ := by
    ext <;> simp [arcCameraPosition, hr, halpha, hbeta, htgt, vZero,
      Real.cos_pi_div_four, Real.sin_pi_div_four]
  rw [hbefore, hkey, if_neg h01, hroute, hfree, harc]
  have hsub2 : Vec3.sub (⟨1000, 0, 0⟩ : Vec3)
      ⟨500 * (Real.sqrt 2 / 2), 500 * (Real.sqrt 2 / 2), 0⟩ =
      ⟨1000 - 250 * Real.sqrt 2, -(250 * Real.sqrt 2), 0⟩ := by
    ext <;> simp [Vec3.sub] <;> ring
  rw [vecDist, hsub2, vecNorm]
  rw [Real.lt_sqrt (by norm_num)]
  have hs2 : Real.sqrt 2 ^ 2 = 2 := Real.sq_sqrt (by norm_num)
  have hs2le : Real.sqrt 2 ≤ 2 := by nlinarith [Real.sqrt_nonneg 2]
  simp only [normSq]
  nlinarith [hs2, hs2le, Real.sqrt_nonneg 2]

theorem renderedCameraPos_congr (a b : FusionState)
    (h1 : a.cameraController = b.cameraController)
    (h2 : a.activeIsController = b.activeIsController)
    (h3 : a.freeCameraPos = b.freeCameraPos) :
    renderedCameraPos a = renderedCameraPos b := by
  unfold renderedCameraPos
  rw [h1, h2, h3]

/-- C1 corrected: every `setControlMode` call leaves the globe camera's pose
untouched (the snapshot taken by the switch procedure is restored into it),
and a call with a concrete mode leaves the rendered viewpoint unchanged
altogether, because the switch procedure early-returns; but a
`setControlMode('auto')` call that switches from cesium into babylon control
does not restore the snapshotted viewpoint — it re-targets the orbit
controller at the local origin with alpha 0, beta pi/4 and radius clamped
into [50, 500], which the counterexample shows can displace the rendered
viewpoint by far more than 1 meter. -/
theorem setControlMode_pose_restoration (s : FusionState) (mode : ControlMode) :
    (setControlMode s mode).cesiumCameraPos = s.cesiumCameraPos ∧
    (mode ≠ ControlMode.auto →
      renderedCameraPos (setControlMode s mode) = renderedCameraPos s) ∧
    (mode = ControlMode.auto → s.controlMode ≠ ControlMode.auto →
      s.actualControlMode = ActualMode.cesium →
      ¬ (getCurrentCameraHeight s > s.autoSwitchHeight) →
      ∃ c, (setControlMode s mode).cameraController = some c ∧
        c.pose.target = vZero ∧ 50 ≤ c.pose.radius ∧ c.pose.radius ≤ 500 ∧
        c.pose.alpha = 0 ∧ c.pose.beta = Real.pi / 4 ∧
        (setControlMode s mode).activeIsController = true) := by
  refine ⟨?_, ?_, ?_⟩
  · unfold setControlMode
    split
    · rfl
    · cases mode <;> dsimp only <;> exact (switchActual_preserves _ _).2.2.1
  · intro hmode
    unfold setControlMode
    split
    · rfl
    · cases mode
      case cesium =>
        dsimp only
        rw [switchActual_noop _ _ rfl]
        exact renderedCameraPos_congr _ _ rfl rfl rfl
      case babylon =>
        dsimp only
        rw [switchActual_noop _ _ rfl]
        exact renderedCameraPos_congr _ _ rfl rfl rfl
      case auto => exact absurd rfl hmode
  · intro hmode hcne hact hheight
    subst hmode
    unfold setControlMode
    rw [if_neg hcne]
    dsimp only
    simp only [getCurrentCameraHeight] at hheight ⊢
    rw [if_neg hheight]
    have hne2 : ¬ (({ s with controlMode := ControlMode.auto }).actualControlMode =
        ActualMode.babylon) := by
      simp [hact]
    unfold switchActualControlMode
    rw [if_neg hne2]
    refine ⟨⟨true, switchToBabylonPose (cartesianToBabylon s.basePoint s.cesiumCameraPos)⟩,
      rfl, rfl, ?_, ?_, rfl, rfl, rfl⟩
    · show (50 : ℝ) ≤ max 50 (min (vecDist (cartesianToBabylon s.basePoint s.cesiumCameraPos)
        vZero) 500)
      exact le_max_left _ _
    · show max 50 (min (vecDist (cartesianToBabylon s.basePoint s.cesiumCameraPos) vZero) 500) ≤
        (500 : ℝ)
      exact max_le (by norm_num) (min_le_right _ _)

/-- C1 witness: the amended behavior evaluated at `c1Start` — a concrete-mode
call leaves both the rendered viewpoint and the globe camera pose
unchanged. -/
theorem setControlMode_pose_restoration_witness :
    renderedCameraPos (setControlMode c1Start ControlMode.babylon) = renderedCameraPos c1Start ∧
      (setControlMode c1Start ControlMode.babylon).cesiumCameraPos = c1Start.cesiumCameraPos := by
  have h := setControlMode_pose_restoration c1Start ControlMode.babylon
  exact ⟨h.2.1 (by intro hc; exact ControlMode.noConfusion hc), h.1⟩

/-- C6 counterexample: a left click whose globe-scene `pickPosition` is
undefined (for example a click on the sky) is dropped by the guard on line
763 — the local scene is not queried and the callback is never invoked, even
though the local scene would report a hit (mesh 0) at those coordinates; the
claim requires the callback to fire with that hit for every left click. -/
theorem leftClick_skipped_when_pick_undefined :
    leftClickHandler (fun _ : ℕ => (none : Option ℕ))
      (fun _ : ℕ => some (⟨some 0⟩ : PickInfo ℕ)) 0 = none ∧
    leftClickHandler (fun _ : ℕ => (none : Option ℕ))
      (fun _ : ℕ => some (⟨some 0⟩ : PickInfo ℕ)) 0 ≠ some (some 0) := by
  exact ⟨rfl, by decide⟩

/-- C6 corrected: while the globe engine owns input and a callback is
configured, every left click whose globe-scene `pickPosition` is defined is
forwarded as a pick query against the local scene at the same screen
coordinates, and the callback is invoked with the hit mesh (or with null
when the local pick reports nothing); clicks whose `pickPosition` is
undefined are silently dropped without invoking the callback. -/
theorem leftClick_callback_when_pick_defined {Pos Cart Mesh : Type}
    (pickPosition : Pos → Option Cart) (scenePick : Pos → Option (PickInfo Mesh))
    (click : Pos) (p : Cart) (hp : pickPosition click = some p) :
    (∀ pickResult, scenePick click = some pickResult →
      leftClickHandler pickPosition scenePick click = some pickResult.pickedMesh) ∧
    (scenePick click = none → leftClickHandler pickPosition scenePick click = some none) ∧
    (∀ pp2 : Pos → Option Cart, pp2 click = none →
      leftClickHandler pp2 scenePick click = none) := by
  refine ⟨?_, ?_, ?_⟩
  · intro pickResult hs
    unfold leftClickHandler
    rw [hp, hs]
  · intro hs
    unfold leftClickHandler
    rw [hp, hs]
  · intro pp2 h2
    unfold leftClickHandler
    rw [h2]

/-- C6 witness: the callback behavior evaluated at concrete pick functions —
the globe pick is defined and the local scene reports mesh 3, so the
callback receives mesh 3. -/
theorem leftClick_callback_when_pick_defined_witness :
    leftClickHandler (fun _ : ℕ => some 0) (fun _ : ℕ => some (⟨some 3⟩ : PickInfo ℕ)) 0 =
      some (some 3) :=
  (leftClick_callback_when_pick_defined (fun _ : ℕ => some 0)
    (fun _ : ℕ => some (⟨some 3⟩ : PickInfo ℕ)) 0 0 rfl).1 ⟨some 3⟩ rfl

end Fusion
